import Mathlib

set_option maxHeartbeats 1000000

/- Shallow embedding of the streaming-aggregation core of the
   openrag-langflow-app repository: the poll-shape aggregator
   `process_question` (src/main.py), the event-shape aggregator
   `stream_response` (src/python/main.py), the two interactive session
   loops (src/main.py `main`, src/python/utils.py `run_chat_session`),
   and the text transforms `make_links_clickable` and
   `highlight_search_fields` (src/utils.py, src/python/utils.py). -/

/-- Python string truthiness of an optional string (`if text:`):
an absent value (`None`) and the empty string are falsy. -/
def truthy : Option String → Bool
  | some s => s != ""
  | none => false

/-- Whether the char list `pat` occurs at the head of the second list. -/
def leadsWith : List Char → List Char → Bool
  | [], _ => true
  | _ :: _, [] => false
  | a :: as, b :: bs => a == b && leadsWith as bs

/-- Whether the char list `pat` occurs anywhere inside the second list. -/
def occursIn (pat : List Char) : List Char → Bool
  | [] => leadsWith pat []
  | c :: rest => leadsWith pat (c :: rest) || occursIn pat rest

/-- Python substring membership `pat in s`. -/
def containsSub (s pat : String) : Bool := occursIn pat.data s.data

/-- Python `str.lower()` (the repository only compares ASCII text). -/
def lowerStr (s : String) : String := ⟨s.data.map Char.toLower⟩

/-- The whitespace characters stripped by Python `str.strip()` and matched
by the regex class `\s` (ASCII range). -/
def pyIsSpace (c : Char) : Bool :=
  c == ' ' || c == '\t' || c == '\n' || c == '\r' || c == '\x0b' || c == '\x0c'

/-- Python `str.strip()`: removes leading and trailing whitespace. -/
def pyStrip (s : String) : String :=
  ⟨((s.data.dropWhile pyIsSpace).reverse.dropWhile pyIsSpace).reverse⟩

/- ------------------------------------------------------------------ -/
/- Poll/iterate-shape aggregator: `process_question` in src/main.py.  -/
/- ------------------------------------------------------------------ -/

/-- The `delta` payload of a poll-shape chunk as probed by
`process_question` (src/main.py lines 58-68): a mapping (whose
`content` entry is read with default `""`), a plain string, or any
other value (which yields no text). -/
inductive PDelta where
  | dict (content : String)
  | str (s : String)
  | other
  deriving DecidableEq

/-- A poll-shape streaming chunk as probed by `process_question` with
`getattr(chunk, _, None)`: an optional top-level `id`, an optional
`delta`, and an optional `status` string. -/
structure Chunk where
  id : Option String
  delta : Option PDelta
  status : Option String
  deriving DecidableEq

/-- Text extracted from a present `delta` (src/main.py lines 62-68). -/
def deltaText : PDelta → String
  | .dict c => c
  | .str s => s
  | .other => ""

/-- `rid if rid is not None else x` — the id-capture step
`if response_id is None: response_id = getattr(chunk, "id", None)` of
`process_question` (src/main.py lines 54-55 and 78-79). -/
def orId : Option String → Option String → Option String
  | some i, _ => some i
  | none, x => x

/-- The chunk-consuming loop of `process_question` (src/main.py lines
52-80), with the response id and accumulated text threaded explicitly.
A chunk whose `delta` is `None` is skipped entirely (`continue`), so its
`status` field is never examined; a chunk with a present `delta` and
`status == "completed"` ends the loop after its text is accumulated
(re-capturing the id from the terminal chunk if it is still `None`). -/
def pqGo : Option String → String → List Chunk → Option String × String
  | rid, acc, [] => (rid, acc)
  | rid, acc, ch :: rest =>
    let rid1 := orId rid ch.id
    match ch.delta with
    | none => pqGo rid1 acc rest
    | some d =>
      let text := deltaText d
      let acc1 := if text == "" then acc else acc ++ text
      if ch.status == some "completed" then (orId rid1 ch.id, acc1)
      else pqGo rid1 acc1 rest

/-- `process_question` (src/main.py): consumes the chunk stream and
produces the captured response id together with the internally
accumulated text (the source renders the text live and returns only the
id; the accumulated buffer is exposed here as the second component so
that its value can be reasoned about). -/
def process_question (chunks : List Chunk) : Option String × String :=
  pqGo none "" chunks

/-- The prefix of a chunk sequence that `process_question` actually
consumes: everything up to and including the first chunk that has a
present `delta` and `status == "completed"`. -/
def consumedChunks : List Chunk → List Chunk
  | [] => []
  | ch :: rest =>
    if ch.delta.isSome && ch.status == some "completed" then [ch]
    else ch :: consumedChunks rest

/-- Text contributed by one chunk (empty for a missing delta). -/
def chunkText (ch : Chunk) : String :=
  match ch.delta with
  | some d => deltaText d
  | none => ""

/-- Ordered concatenation of the delta texts of a chunk list (chunks
with empty or missing deltas contribute the empty string). -/
def catTexts : List Chunk → String
  | [] => ""
  | ch :: rest => chunkText ch ++ catTexts rest

/-- First non-null `id` carried by a chunk list. -/
def firstChunkId : List Chunk → Option String
  | [] => none
  | ch :: rest => match ch.id with | some i => some i | none => firstChunkId rest


/- ------------------------------------------------------------------ -/
/- Event-shape aggregator: `stream_response` in src/python/main.py.   -/
/- ------------------------------------------------------------------ -/

/-- A streaming event as probed by `stream_response` (src/python/main.py
lines 100-116), discriminated on `event.type`:
* `content` carries `getattr(event, 'delta', None)`;
* `done` carries the `chat_id` attribute — the outer `Option` records
  whether the attribute is present at all (`getattr(event, 'chat_id',
  chat_id)` falls back to the passed-in id when it is absent), the inner
  `Option` is the attribute's possibly-`None` value;
* `errorEvt` carries the resolved error message
  (`getattr(event, 'error', 'Unknown error')`);
* `other` stands for any further event type, which is ignored. -/
inductive SEvent where
  | content (delta : Option String)
  | done (chatIdAttr : Option (Option String))
  | errorEvt (msg : String)
  | other
  deriving DecidableEq

/-- The observable behaviour of one `client.chat.stream(...)` stream:
the events it yields in order, an optional transport exception raised
after those events (a normal end of stream — `StopAsyncIteration` /
`GeneratorExit` — is `none`), and the stream object's own `chat_id`
state (`none` when the attribute is missing; a present attribute whose
value is falsy behaves identically to a missing one, since every access
in the source is guarded by `hasattr(stream, 'chat_id') and
stream.chat_id`). -/
structure SInput where
  events : List SEvent
  transportErr : Option String
  streamChatId : Option String
  deriving DecidableEq

/-- State of the event loop of `stream_response` when it stops:
accumulated text, current `final_chat_id`, and the message of the
exception raised inside the loop body, if any. -/
structure LoopState where
  acc : String
  fid : Option String
  raised : Option String
  deriving DecidableEq

/-- The `async for event in stream` loop of `stream_response`
(src/python/main.py lines 100-116). A `content` event appends its delta
when truthy; a `done` event overwrites `final_chat_id` with
`getattr(event, 'chat_id', chat_id)`; an `error` event raises
`Exception(f"Stream error: {error_msg}")`, stopping consumption; any
other event type is ignored. -/
def consumeEvents (chatId : Option String) :
    List SEvent → String → Option String → LoopState
  | [], acc, fid => ⟨acc, fid, none⟩
  | e :: rest, acc, fid =>
    match e with
    | .content d =>
      consumeEvents chatId rest (if truthy d then acc ++ d.getD "" else acc) fid
    | .done a => consumeEvents chatId rest acc (a.getD chatId)
    | .errorEvt m => ⟨acc, fid, some ("Stream error: " ++ m)⟩
    | .other => consumeEvents chatId rest acc fid

/-- The transient-error sniff of src/python/main.py lines 122-123:
`"peer closed" in error_str or "incomplete chunked" in error_str` on the
lowercased exception message. -/
def isTransientMsg (m : String) : Bool :=
  containsSub (lowerStr m) "peer closed" || containsSub (lowerStr m) "incomplete chunked"

/-- Best-effort recovery of the chat id from the stream object's own
state: `if hasattr(stream, 'chat_id') and stream.chat_id: final_chat_id
= stream.chat_id` (src/python/main.py lines 128-129, 141-142, 148-149). -/
def recoverId (streamChatId fid : Option String) : Option String :=
  if truthy streamChatId then streamChatId else fid

/-- The post-loop fixup of src/python/main.py lines 140-142: when
`final_chat_id` is falsy or still equals the passed-in `chat_id`, try to
recover it from the stream object. -/
def postLoopId (chatId streamChatId fid : Option String) : Option String :=
  if !truthy fid || fid == chatId then recoverId streamChatId fid else fid

/-- `stream_response` (src/python/main.py lines 71-154) as a function of
the passed-in `chat_id` and the observable stream behaviour. `.ok`
carries the returned `(final_chat_id, accumulated)` pair; `.error`
carries the message of the exception propagated to the caller. The
inner `except` handler swallows a transient ("peer closed" /
"incomplete chunked") error when text was already accumulated; every
other escaping exception reaches the outer handler, which returns the
accumulated text when it is non-empty and otherwise re-raises wrapped as
`Streaming error: ...`. Entering the stream context manager is assumed
to succeed (so `stream_obj` is always set), and the per-chunk callback
is not modelled (it only renders). -/
def stream_response (chatId : Option String) (inp : SInput) :
    Except String (Option String × String) :=
  let st := consumeEvents chatId inp.events "" chatId
  let raised := match st.raised with
    | some m => some m
    | none => inp.transportErr
  match raised with
  | none => .ok (postLoopId chatId inp.streamChatId st.fid, st.acc)
  | some m =>
    if isTransientMsg m then
      if st.acc == "" then .error ("Streaming error: " ++ m)
      else .ok (postLoopId chatId inp.streamChatId
                  (recoverId inp.streamChatId st.fid), st.acc)
    else
      if st.acc == "" then .error ("Streaming error: " ++ m)
      else .ok (recoverId inp.streamChatId st.fid, st.acc)

/-- Ordered concatenation of the truthy deltas of the content events of
an event list. -/
def eventsText : List SEvent → String
  | [] => ""
  | .content d :: rest => (if truthy d then d.getD "" else "") ++ eventsText rest
  | _ :: rest => eventsText rest

/-- The value `final_chat_id` holds after the loop body has processed an
event list without raising: every `done` event overwrites it. -/
def foldFid (chatId : Option String) : List SEvent → Option String → Option String
  | [], fid => fid
  | .done a :: rest, _ => foldFid chatId rest (a.getD chatId)
  | _ :: rest, fid => foldFid chatId rest fid

/-- Whether an event list contains an `error` event. -/
def hasErrEvt : List SEvent → Bool
  | [] => false
  | .errorEvt _ :: _ => true
  | _ :: rest => hasErrEvt rest

/-- Whether an event list contains a `done` event. -/
def hasDone : List SEvent → Bool
  | [] => false
  | .done _ :: _ => true
  | _ :: rest => hasDone rest

/- ------------------------------------------------------------------ -/
/- Session loops: `main` (src/main.py) and `run_chat_session`         -/
/- (src/python/utils.py).                                             -/
/- ------------------------------------------------------------------ -/

/-- Outcome of one aggregator invocation as observed by the session
loops: a normal return carrying the new id (and text), a
`ConnectionError`/`TimeoutError`, a `KeyboardInterrupt`, or any other
exception. -/
inductive StreamResult where
  | ok (chatId : Option String) (text : String)
  | connErr (msg : String)
  | interrupt
  | otherErr (msg : String)
  deriving DecidableEq

/-- What the loop does after the current iteration. -/
inductive LoopAction where
  | next
  | quit
  deriving DecidableEq

/-- Observable effect of one loop iteration: the session's continuation
id afterwards, whether the loop continues, and whether the aggregator
was invoked during the iteration. -/
structure StepOut where
  chatId : Option String
  action : LoopAction
  invoked : Bool
  deriving DecidableEq

/-- `user_input.lower() in ['exit', 'quit', 'q']` — the exit-command
test shared by both loops. -/
def isExitWord (w : String) : Bool :=
  w == "exit" || w == "quit" || w == "q"

/-- How a raw input line is classified by both session loops: the line
is stripped, exit commands terminate, blank input is skipped, anything
else is sent to the aggregator. -/
inductive InputClass where
  | quitCmd
  | blank
  | ask
  deriving DecidableEq

/-- Input classification performed at the top of each loop iteration
(src/main.py lines 119-128, src/python/utils.py lines 63-73). -/
def classifyInput (input : String) : InputClass :=
  let t := pyStrip input
  if isExitWord (lowerStr t) then .quitCmd
  else if t == "" then .blank
  else .ask

/-- One iteration of `run_chat_session` (src/python/utils.py lines
60-103): on a normal return the continuation id is replaced
unconditionally by the returned one (`chat_id, _ = await stream_func
(...)`), a `KeyboardInterrupt` ends the loop, and connection or other
errors are reported and leave the id unchanged while the loop
continues. -/
def run_chat_session_step (chatId : Option String) (input : String)
    (res : StreamResult) : StepOut :=
  match classifyInput input with
  | .quitCmd => ⟨chatId, .quit, false⟩
  | .blank => ⟨chatId, .next, false⟩
  | .ask =>
    match res with
    | .ok cid _ => ⟨cid, .next, true⟩
    | .connErr _ => ⟨chatId, .next, true⟩
    | .interrupt => ⟨chatId, .quit, true⟩
    | .otherErr _ => ⟨chatId, .next, true⟩

/-- One iteration of the `main` chat loop (src/main.py lines 116-148):
identical to `run_chat_session_step` except that a returned response id
replaces the previous one only when it is truthy (`if response_id:
previous_response_id = response_id`). -/
def main_step (prevId : Option String) (input : String)
    (res : StreamResult) : StepOut :=
  match classifyInput input with
  | .quitCmd => ⟨prevId, .quit, false⟩
  | .blank => ⟨prevId, .next, false⟩
  | .ask =>
    match res with
    | .ok rid _ => ⟨if truthy rid then rid else prevId, .next, true⟩
    | .connErr _ => ⟨prevId, .next, true⟩
    | .interrupt => ⟨prevId, .quit, true⟩
    | .otherErr _ => ⟨prevId, .next, true⟩

/- ------------------------------------------------------------------ -/
/- Text transforms: `make_links_clickable` and                        -/
/- `highlight_search_fields` (src/utils.py, src/python/utils.py).     -/
/- ------------------------------------------------------------------ -/

/-- Split a char list at the first occurrence of `c`: returns the part
before it (which does not contain `c`) and the part after it. -/
def splitAtChar (c : Char) : List Char → Option (List Char × List Char)
  | [] => none
  | x :: xs =>
    if x == c then some ([], xs)
    else match splitAtChar c xs with
      | some (b, a) => some (x :: b, a)
      | none => none

/-- Attempt to match the regex `\[([^\]]+)\]\(([^\)]+)\)` at the head of
a char list. Both character classes exclude their own closing bracket,
so the match is forced: the bracket group runs to the first `]`, which
must be immediately followed by `(`, and the parenthesis group runs to
the first `)`; both groups must be non-empty. Returns the link text,
the url, and the rest of the input after the match. -/
def matchLinkAt : List Char → Option (List Char × List Char × List Char)
  | '[' :: rest =>
    match splitAtChar ']' rest with
    | some (text, afterBr) =>
      if text == [] then none
      else match afterBr with
        | '(' :: rest2 =>
          match splitAtChar ')' rest2 with
          | some (url, rest3) =>
            if url == [] then none else some (text, url, rest3)
          | none => none
        | _ => none
    | none => none
  | _ => none

/-- The replacement of `make_links_clickable`:
`f'[link=\x7burl\x7d]\x7btext\x7d[/link]'`. -/
def linkTag (text url : List Char) : List Char :=
  "[link=".data ++ url ++ "]".data ++ text ++ "[/link]".data

/-- Fuelled left-to-right scan-and-replace realizing
`re.sub(link_pattern, replace_link, markdown_text)`: the leftmost match
is replaced and scanning resumes after it, exactly as `re.sub` does.
The fuel only makes the recursion structural; it is always called with
fuel at least the length of the list, which suffices because each
recursive call consumes at least one input character. -/
def linkSubF : Nat → List Char → List Char
  | 0, _ => []
  | _ + 1, [] => []
  | fuel + 1, c :: cs =>
    match matchLinkAt (c :: cs) with
    | some (text, url, rest) => linkTag text url ++ linkSubF fuel rest
    | none => c :: linkSubF fuel cs

/-- `re.sub` for the markdown-link pattern on a char list. -/
def linkSub (l : List Char) : List Char := linkSubF l.length l

/-- `make_links_clickable` (src/utils.py lines 6-20 and
src/python/utils.py lines 106-118; the two copies are identical). -/
def make_links_clickable (s : String) : String := ⟨linkSub s.data⟩

/-- Whether the markdown-link pattern matches anywhere in a char list. -/
def hasLink : List Char → Bool
  | [] => false
  | c :: cs => (matchLinkAt (c :: cs)).isSome || hasLink cs

/-- The alternation `(input_value|search_query|search_mode|search_[^"]+|query)`
of the field pattern in src/python/utils.py line 126, applied to the
text between two consecutive double quotes (the alternatives never
contain a quote, so the group always ends at the next quote). The
variant in src/utils.py line 31 differs only in lacking the
`input_value` alternative. -/
def isTargetKey (w : List Char) : Bool :=
  w == "input_value".data || w == "query".data ||
    (leadsWith "search_".data w && decide ("search_".data.length < w.length))

/-- Whether the brace-free segment of a candidate JSON object contains a
quoted target key: some `"` in the segment is followed, up to the next
`"`, by a key the alternation accepts. -/
def segHasKey : List Char → Bool
  | [] => false
  | '"' :: rest =>
    (match splitAtChar '"' rest with
     | some (w, _) => isTargetKey w
     | none => false) || segHasKey rest
  | _ :: rest => segHasKey rest

/-- Attempt to match `\x7b[^\x7d]*"(ALTS)"[^\x7d]*\x7d` at the head of a
char list: the body character class excludes the closing brace, so the
match is forced to run to the first `\x7d`, and the brace-free segment
must contain a quoted target key. Returns the whole matched object
(braces included) and the rest. -/
def matchBody : List Char → Option (List Char × List Char)
  | '\x7b' :: rest =>
    match splitAtChar '\x7d' rest with
    | some (seg, after) =>
      if segHasKey seg then some ('\x7b' :: (seg ++ ['\x7d']), after) else none
    | none => none
  | _ => none

/-- Attempt to match the full field pattern
`(?:,\s*)?\x7b[^\x7d]*"(ALTS)"[^\x7d]*\x7d` at the head of a char list.
When the head is a comma the optional group must consume it together
with the following whitespace run (backtracking to zero repetitions
would require a `\x7b` where the comma stands, which is impossible). -/
def matchField : List Char → Option (List Char × List Char)
  | ',' :: rest =>
    (match matchBody (rest.dropWhile pyIsSpace) with
     | some (body, after) =>
       some (',' :: (rest.takeWhile pyIsSpace ++ body), after)
     | none => none)
  | l =>
    match matchBody l with
    | some (body, after) => some (body, after)
    | none => none

/-- The replacement of `highlight_search_fields`: the whole match with
`lstrip(', ')` applied (leading commas and spaces removed — but not
other whitespace), wrapped in a fenced ```json code block. -/
def fieldTag (m : List Char) : List Char :=
  "```json\n".data ++ m.dropWhile (fun c => c == ',' || c == ' ') ++ "\n```\n\n".data

/-- Fuelled left-to-right scan-and-replace realizing
`re.sub(field_pattern, replace_field, text)`. -/
def fieldSubF : Nat → List Char → List Char
  | 0, _ => []
  | _ + 1, [] => []
  | fuel + 1, c :: cs =>
    match matchField (c :: cs) with
    | some (m, rest) => fieldTag m ++ fieldSubF fuel rest
    | none => c :: fieldSubF fuel cs

/-- `re.sub` for the field pattern on a char list. -/
def fieldSub (l : List Char) : List Char := fieldSubF l.length l

/-- `highlight_search_fields` (src/python/utils.py lines 121-133; the
copy in src/utils.py lines 23-42 differs only in the key alternation,
see `isTargetKey`). -/
def highlight_search_fields (s : String) : String := ⟨fieldSub s.data⟩

/-- Whether the field pattern matches anywhere in a char list. -/
def hasField : List Char → Bool
  | [] => false
  | c :: cs => (matchField (c :: cs)).isSome || hasField cs

/- ------------------------------------------------------------------ -/
/- Helper lemmas.                                                     -/
/- ------------------------------------------------------------------ -/

/-- The guarded accumulation `if text: accumulated += text` produces the
same string as unconditional appending. -/
theorem append_if_empty (acc t : String) :
    (if t == "" then acc else acc ++ t) = acc ++ t := by
  by_cases h : t = ""
  · subst h; simp [String.append_empty]
  · simp [h]

theorem orId_assoc (a b c : Option String) :
    orId (orId a b) c = orId a (orId b c) := by
  cases a <;> cases b <;> rfl

theorem orId_absorb (a b : Option String) : orId (orId a b) b = orId a b := by
  cases a <;> cases b <;> rfl

theorem orId_none (a : Option String) : orId a none = a := by
  cases a <;> rfl

theorem firstChunkId_cons (ch : Chunk) (rest : List Chunk) :
    firstChunkId (ch :: rest) = orId ch.id (firstChunkId rest) := by
  cases h : ch.id <;> simp [firstChunkId, orId, h]

/-- The accumulated text of the `process_question` loop is the starting
buffer followed by the delta texts of the consumed chunks. -/
theorem pqGo_acc (l : List Chunk) :
    ∀ (rid : Option String) (acc : String),
      (pqGo rid acc l).2 = acc ++ catTexts (consumedChunks l) := by
  induction l with
  | nil =>
    intro rid acc
    simp [pqGo, consumedChunks, catTexts, String.append_empty]
  | cons ch rest ih =>
    intro rid acc
    cases hd : ch.delta with
    | none =>
      simp [pqGo, hd, consumedChunks, catTexts, chunkText, ih,
        String.empty_append]
    | some d =>
      cases hs : ch.status == some "completed" with
      | true =>
        simp [pqGo, hd, hs, consumedChunks, catTexts, chunkText,
          String.append_empty]
        intro h
        rw [h, String.append_empty]
      | false =>
        simp [pqGo, hd, hs, consumedChunks, catTexts, chunkText, ih]
        by_cases h : deltaText d = ""
        · simp [h, String.empty_append]
        · simp [h, String.append_assoc]

/-- The response id captured by the `process_question` loop is the
starting id, or failing that the first non-null id of the consumed
chunks. -/
theorem pqGo_id (l : List Chunk) :
    ∀ (rid : Option String) (acc : String),
      (pqGo rid acc l).1 = orId rid (firstChunkId (consumedChunks l)) := by
  induction l with
  | nil => intro rid acc; cases rid <;> rfl
  | cons ch rest ih =>
    intro rid acc
    cases hd : ch.delta with
    | none =>
      simp [pqGo, hd, consumedChunks, ih, firstChunkId_cons, orId_assoc]
    | some d =>
      cases hs : ch.status == some "completed" with
      | true =>
        simp [pqGo, hd, hs, consumedChunks, firstChunkId_cons, firstChunkId,
          orId_none, orId_absorb, orId_assoc]
      | false =>
        simp [pqGo, hd, hs, consumedChunks, ih, firstChunkId_cons, orId_assoc]

/-- Guarded delta accumulation commutes with a pre-existing buffer. -/
theorem append_if_truthy (acc : String) (d : Option String) :
    (if truthy d then acc ++ d.getD "" else acc)
      = acc ++ (if truthy d then d.getD "" else "") := by
  by_cases h : truthy d
  · simp [h]
  · simp [h, String.append_empty]

/-- On an event list without `error` events the loop of
`stream_response` terminates normally, having appended every truthy
content delta and folded every `done` event into `final_chat_id`. -/
theorem consumeEvents_noerr (chatId : Option String) (l : List SEvent) :
    hasErrEvt l = false →
    ∀ (acc : String) (fid : Option String),
      consumeEvents chatId l acc fid
        = ⟨acc ++ eventsText l, foldFid chatId l fid, none⟩ := by
  induction l with
  | nil =>
    intro _ acc fid
    simp [consumeEvents, eventsText, foldFid, String.append_empty]
  | cons e rest ih =>
    intro h acc fid
    cases e with
    | content d =>
      simp [consumeEvents, eventsText, foldFid, append_if_truthy,
        String.append_assoc, ih (by simpa [hasErrEvt] using h)]
    | done a =>
      simp [consumeEvents, eventsText, foldFid,
        ih (by simpa [hasErrEvt] using h)]
    | errorEvt m => simp [hasErrEvt] at h
    | other =>
      simp [consumeEvents, eventsText, foldFid,
        ih (by simpa [hasErrEvt] using h)]

theorem foldFid_append (chatId : Option String) (xs ys : List SEvent) :
    ∀ fid, foldFid chatId (xs ++ ys) fid = foldFid chatId ys (foldFid chatId xs fid) := by
  induction xs with
  | nil => intro fid; rfl
  | cons e rest ih => intro fid; cases e <;> simp [foldFid, ih]

theorem foldFid_noDone (chatId : Option String) (l : List SEvent) :
    hasDone l = false → ∀ fid, foldFid chatId l fid = fid := by
  induction l with
  | nil => intro _ fid; rfl
  | cons e rest ih =>
    intro h fid
    cases e with
    | done a => simp [hasDone] at h
    | content d => exact ih (by simpa [hasDone] using h) fid
    | errorEvt m => exact ih (by simpa [hasDone] using h) fid
    | other => exact ih (by simpa [hasDone] using h) fid

/-- When the stream object exposes no usable `chat_id`, the post-loop
fixup leaves `final_chat_id` unchanged. -/
theorem postLoopId_noStream (chatId fid : Option String) :
    postLoopId chatId none fid = fid := by
  simp [postLoopId, recoverId, truthy]

theorem recoverId_noStream (fid : Option String) : recoverId none fid = fid := by
  simp [recoverId, truthy]

theorem hasErrEvt_append (xs ys : List SEvent) :
    hasErrEvt (xs ++ ys) = (hasErrEvt xs || hasErrEvt ys) := by
  induction xs with
  | nil => simp [hasErrEvt]
  | cons e rest ih => cases e <;> simp [hasErrEvt, ih]

/-- A scan with no match anywhere leaves the input unchanged (given
enough fuel). -/
theorem linkSubF_noMatch :
    ∀ (fuel : Nat) (l : List Char), l.length ≤ fuel → hasLink l = false →
      linkSubF fuel l = l := by
  intro fuel
  induction fuel with
  | zero =>
    intro l hlen _
    have : l = [] := List.length_eq_zero.mp (Nat.le_zero.mp hlen)
    simp [this, linkSubF]
  | succ n ih =>
    intro l hlen hnm
    cases l with
    | nil => simp [linkSubF]
    | cons c cs =>
      have h1 : (matchLinkAt (c :: cs)).isSome = false := by
        cases h : (matchLinkAt (c :: cs)).isSome with
        | false => rfl
        | true => simp [hasLink, h] at hnm
      have h2 : hasLink cs = false := by
        cases h : hasLink cs with
        | false => rfl
        | true => simp [hasLink, h] at hnm
      have h3 : matchLinkAt (c :: cs) = none := by
        cases h : matchLinkAt (c :: cs) with
        | none => rfl
        | some v => simp [h] at h1
      simp [linkSubF, h3]
      exact ih cs (Nat.le_of_succ_le_succ (by simpa using hlen)) h2

/-- Field-pattern analogue of `linkSubF_noMatch`. -/
theorem fieldSubF_noMatch :
    ∀ (fuel : Nat) (l : List Char), l.length ≤ fuel → hasField l = false →
      fieldSubF fuel l = l := by
  intro fuel
  induction fuel with
  | zero =>
    intro l hlen _
    have : l = [] := List.length_eq_zero.mp (Nat.le_zero.mp hlen)
    simp [this, fieldSubF]
  | succ n ih =>
    intro l hlen hnm
    cases l with
    | nil => simp [fieldSubF]
    | cons c cs =>
      have h1 : (matchField (c :: cs)).isSome = false := by
        cases h : (matchField (c :: cs)).isSome with
        | false => rfl
        | true => simp [hasField, h] at hnm
      have h2 : hasField cs = false := by
        cases h : hasField cs with
        | false => rfl
        | true => simp [hasField, h] at hnm
      have h3 : matchField (c :: cs) = none := by
        cases h : matchField (c :: cs) with
        | none => rfl
        | some v => simp [h] at h1
      simp [fieldSubF, h3]
      exact ih cs (Nat.le_of_succ_le_succ (by simpa using hlen)) h2

/- ------------------------------------------------------------------ -/
/- Claim theorems.                                                    -/
/- ------------------------------------------------------------------ -/

/-- Claim C1, counterexample: the poll-shape aggregator stops at the
first chunk with a present delta and `status == "completed"`, so a
sequence that carries a further non-empty delta after that chunk does
not aggregate to the concatenation of every non-empty delta in the
sequence: here the deltas are `"a"` then `"b"`, the concatenation of
every non-empty delta is `"ab"`, yet the accumulated text is `"a"`. -/
theorem c1_counterexample :
    catTexts [⟨none, some (.str "a"), some "completed"⟩,
              ⟨none, some (.str "b"), none⟩] = "ab" ∧
    (process_question [⟨none, some (.str "a"), some "completed"⟩,
                       ⟨none, some (.str "b"), none⟩]).2 = "a" ∧
    ("a" : String) ≠ "ab" := by
  refine ⟨rfl, rfl, ?_⟩
  decide

/-- Claim C1, amended: the accumulated text equals the ordered
concatenation of the non-empty deltas of the chunks the aggregator
actually consumes. For `process_question` that is the prefix up to and
including the first chunk with a present delta and
`status == "completed"`; for `stream_response` it is every content
event, provided no `error` event occurs and either the transport does
not raise or some content was accumulated (otherwise the call raises
instead of returning text). Chunks and events with empty or missing
deltas contribute nothing. -/
theorem c1_delta_concatenation :
    (∀ chunks : List Chunk,
      (process_question chunks).2 = catTexts (consumedChunks chunks)) ∧
    (∀ (chatId : Option String) (events : List SEvent) (terr sid : Option String),
      hasErrEvt events = false →
      (terr = none ∨ eventsText events ≠ "") →
      ∃ cid, stream_response chatId ⟨events, terr, sid⟩
        = .ok (cid, eventsText events)) := by
  constructor
  · intro chunks
    rw [process_question, pqGo_acc, String.empty_append]
  · intro chatId events terr sid hne hterr
    have hc := consumeEvents_noerr chatId events hne "" chatId
    rw [String.empty_append] at hc
    cases terr with
    | none =>
      exact ⟨postLoopId chatId sid (foldFid chatId events chatId),
        by simp [stream_response, hc]⟩
    | some m =>
      have hacc : eventsText events ≠ "" := by
        rcases hterr with h | h
        · exact absurd h (by simp)
        · exact h
      by_cases ht : isTransientMsg m
      · exact ⟨postLoopId chatId sid
            (recoverId sid (foldFid chatId events chatId)),
          by simp [stream_response, hc, ht, hacc]⟩
      · exact ⟨recoverId sid (foldFid chatId events chatId),
          by simp [stream_response, hc, ht, hacc]⟩

/-- Claim C1, witness: the amended theorem applied to a concrete
error-free event stream with one non-empty and one empty delta. -/
theorem c1_witness :
    hasErrEvt [SEvent.content (some "hel"), SEvent.content (some ""),
               SEvent.content (some "lo")] = false ∧
    ∃ cid, stream_response none
        ⟨[SEvent.content (some "hel"), SEvent.content (some ""),
          SEvent.content (some "lo")], none, none⟩ = .ok (cid, "hello") :=
  ⟨by decide,
   c1_delta_concatenation.2 none
     [SEvent.content (some "hel"), SEvent.content (some ""),
      SEvent.content (some "lo")] none none (by decide) (Or.inl rfl)⟩

/-- Claim C2, counterexample: in the event-shape aggregator every `done`
event overwrites `final_chat_id` (`final_chat_id = getattr(event,
'chat_id', chat_id)`), so with two `done` events carrying ids `"A"`
then `"B"` the returned continuation id is `"B"`, not the first
non-null id `"A"` observed during the stream. -/
theorem c2_counterexample :
    stream_response none
      ⟨[SEvent.done (some (some "A")), SEvent.done (some (some "B"))],
        none, none⟩ = .ok (some "B", "") ∧
    (some "B" : Option String) ≠ some "A" := by
  refine ⟨rfl, ?_⟩
  decide

/-- Claim C2, amended: the first-non-null capture policy holds for the
poll-shape aggregator only — `process_question` returns the first
non-null id among the chunks it consumes, and a later null never
overwrites it. In the event-shape aggregator each `done` event
overwrites the id, so the returned id reflects the most recent `done`
event: when the last `done` event of an error-free stream carries a
`chat_id` attribute and the stream object exposes no id of its own, the
returned continuation id is that event's value (falling back to the
passed-in id when the attribute is absent). -/
theorem c2_id_capture :
    (∀ chunks : List Chunk,
      (process_question chunks).1 = firstChunkId (consumedChunks chunks)) ∧
    (∀ (chatId : Option String) (l1 l2 : List SEvent) (a : Option (Option String)),
      hasErrEvt (l1 ++ SEvent.done a :: l2) = false → hasDone l2 = false →
      stream_response chatId ⟨l1 ++ SEvent.done a :: l2, none, none⟩
        = .ok (a.getD chatId, eventsText (l1 ++ SEvent.done a :: l2))) := by
  constructor
  · intro chunks
    rw [process_question, pqGo_id]
    rfl
  · intro chatId l1 l2 a hne hnd
    have hc := consumeEvents_noerr chatId (l1 ++ SEvent.done a :: l2) hne "" chatId
    rw [String.empty_append] at hc
    have hfid : foldFid chatId (l1 ++ SEvent.done a :: l2) chatId = a.getD chatId := by
      rw [foldFid_append]
      show foldFid chatId (SEvent.done a :: l2) _ = _
      rw [foldFid]
      exact foldFid_noDone chatId l2 hnd _
    simp [stream_response, hc, hfid, postLoopId_noStream]

/-- Claim C2, witness: the amended theorem applied to a concrete stream
whose two `done` events carry ids `"A"` and `"B"`. -/
theorem c2_witness :
    hasErrEvt [SEvent.done (some (some "A")), SEvent.done (some (some "B"))]
      = false ∧
    hasDone ([] : List SEvent) = false ∧
    stream_response none
      ⟨[SEvent.done (some (some "A")), SEvent.done (some (some "B"))],
        none, none⟩ = .ok (some "B", "") :=
  ⟨by decide, by decide,
   c2_id_capture.2 none [SEvent.done (some (some "A"))] []
     (some (some "B")) (by decide) (by decide)⟩

/-- Claim C3: if the transport raises an error whose lowercased message
contains a known peer-closed / incomplete-chunked phrase after an
error-free event prefix that accumulated some non-empty content, the
event-shape aggregator returns normally with the accumulated text. -/
theorem c3_transient_with_content (chatId : Option String)
    (events : List SEvent) (m : String) (sid : Option String) :
    hasErrEvt events = false → isTransientMsg m = true →
    eventsText events ≠ "" →
    ∃ cid, stream_response chatId ⟨events, some m, sid⟩
      = .ok (cid, eventsText events) := by
  intro hne ht hacc
  have hc := consumeEvents_noerr chatId events hne "" chatId
  rw [String.empty_append] at hc
  exact ⟨postLoopId chatId sid (recoverId sid (foldFid chatId events chatId)),
    by simp [stream_response, hc, ht, hacc]⟩

/-- Claim C3, witness: a transient transport error (`"peer closed"`
embedded in the message, capitalised) after one non-empty delta. -/
theorem c3_witness :
    hasErrEvt [SEvent.content (some "partial answer")] = false ∧
    isTransientMsg "httpx.RemoteProtocolError: Peer Closed connection" = true ∧
    eventsText [SEvent.content (some "partial answer")] ≠ "" ∧
    ∃ cid, stream_response (some "c1")
        ⟨[SEvent.content (some "partial answer")],
          some "httpx.RemoteProtocolError: Peer Closed connection",
          none⟩ = .ok (cid, "partial answer") :=
  ⟨by decide, by decide, by decide,
   c3_transient_with_content (some "c1") [SEvent.content (some "partial answer")]
     "httpx.RemoteProtocolError: Peer Closed connection" none
     (by decide) (by decide) (by decide)⟩

/-- Claim C4: the same transient error class with zero accumulated
content is propagated to the caller as a failure (wrapped with the
`Streaming error:` context by the outer handler). -/
theorem c4_transient_no_content (chatId : Option String)
    (events : List SEvent) (m : String) (sid : Option String) :
    hasErrEvt events = false → isTransientMsg m = true →
    eventsText events = "" →
    stream_response chatId ⟨events, some m, sid⟩
      = .error ("Streaming error: " ++ m) := by
  intro hne ht hacc
  have hc := consumeEvents_noerr chatId events hne "" chatId
  rw [String.empty_append] at hc
  simp [stream_response, hc, ht, hacc]

/-- Claim C4, witness: a transient error with no prior content raises. -/
theorem c4_witness :
    hasErrEvt ([] : List SEvent) = false ∧
    isTransientMsg "incomplete chunked read" = true ∧
    eventsText ([] : List SEvent) = "" ∧
    stream_response none ⟨[], some "incomplete chunked read", none⟩
      = .error "Streaming error: incomplete chunked read" :=
  ⟨by decide, by decide, rfl,
   c4_transient_no_content none [] "incomplete chunked read" none
     (by decide) (by decide) rfl⟩

/-- Claim C5, counterexample: `final_chat_id` is initialised to the
passed-in `chat_id` (src/python/main.py line 91), so when the stream
ends without ever producing a continuation id (no `done` event, no
stream-object id) the event-shape aggregator returns the prior id
`"prev"`, not null. -/
theorem c5_counterexample :
    stream_response (some "prev") ⟨[SEvent.content (some "hi")], none, none⟩
      = .ok (some "prev", "hi") ∧
    (some "prev" : Option String) ≠ none := by
  refine ⟨rfl, ?_⟩
  decide

/-- Claim C5, amended: the null-on-no-id behaviour holds for the
poll-shape aggregator — `process_question` returns a null id whenever no
consumed chunk carries one (it receives no prior id to fall back on).
The event-shape aggregator instead returns the passed-in id when an
error-free stream produces no `done` event and the stream object
exposes no id, so its result is null exactly when no prior id was
passed in. -/
theorem c5_no_id_stream :
    (∀ chunks : List Chunk,
      firstChunkId (consumedChunks chunks) = none →
      (process_question chunks).1 = none) ∧
    (∀ (chatId : Option String) (events : List SEvent),
      hasErrEvt events = false → hasDone events = false →
      stream_response chatId ⟨events, none, none⟩
        = .ok (chatId, eventsText events)) := by
  constructor
  · intro chunks h
    rw [process_question, pqGo_id, h]
    rfl
  · intro chatId events hne hnd
    have hc := consumeEvents_noerr chatId events hne "" chatId
    rw [String.empty_append] at hc
    simp [stream_response, hc, foldFid_noDone chatId events hnd,
      postLoopId_noStream]

/-- Claim C5, witness: the amended theorem applied to an id-less chunk
stream and to an id-less event stream with a non-null prior id. -/
theorem c5_witness :
    firstChunkId (consumedChunks [⟨none, some (.str "x"), none⟩]) = none ∧
    (process_question [⟨none, some (.str "x"), none⟩]).1 = none ∧
    hasErrEvt [SEvent.content (some "hi")] = false ∧
    hasDone [SEvent.content (some "hi")] = false ∧
    stream_response (some "prior") ⟨[SEvent.content (some "hi")], none, none⟩
      = .ok (some "prior", "hi") :=
  ⟨by decide,
   c5_no_id_stream.1 [⟨none, some (.str "x"), none⟩] (by decide),
   by decide, by decide,
   c5_no_id_stream.2 (some "prior") [SEvent.content (some "hi")]
     (by decide) (by decide)⟩

/-- Claim C6: when a turn's aggregator call fails with a
connectivity-class error (`ConnectionError`/`TimeoutError`), both
session loops leave the continuation id unchanged — so the next turn is
attempted with exactly the id held before the failed turn — and the
loop continues rather than terminating. -/
theorem c6_conn_failure_frame (cid : Option String) (input m : String) :
    classifyInput input = .ask →
    run_chat_session_step cid input (.connErr m) = ⟨cid, .next, true⟩ ∧
    main_step cid input (.connErr m) = ⟨cid, .next, true⟩ := by
  intro h
  constructor
  · simp [run_chat_session_step, h]
  · simp [main_step, h]

/-- Claim C6, witness: a connection error on a concrete question leaves
the concrete id `"turn-3"` in place and the loop running. -/
theorem c6_witness :
    classifyInput "what is RAG?" = .ask ∧
    run_chat_session_step (some "turn-3") "what is RAG?"
      (.connErr "connection refused") = ⟨some "turn-3", .next, true⟩ ∧
    main_step (some "turn-3") "what is RAG?"
      (.connErr "connection refused") = ⟨some "turn-3", .next, true⟩ :=
  ⟨by decide,
   (c6_conn_failure_frame (some "turn-3") "what is RAG?" "connection refused"
     (by decide)).1,
   (c6_conn_failure_frame (some "turn-3") "what is RAG?" "connection refused"
     (by decide)).2⟩

/-- Claim C9: an input line that strips to an exit word (`exit`, `quit`
or `q`, case-insensitively, surrounding whitespace ignored) makes both
session loops terminate without invoking the aggregator, and an input
that strips to the empty string is skipped, looping again without
invoking the aggregator; in both cases the continuation id is
untouched. -/
theorem c9_exit_and_blank (cid : Option String) (input : String)
    (res : StreamResult) :
    (isExitWord (lowerStr (pyStrip input)) = true →
      run_chat_session_step cid input res = ⟨cid, .quit, false⟩ ∧
      main_step cid input res = ⟨cid, .quit, false⟩) ∧
    (pyStrip input = "" →
      run_chat_session_step cid input res = ⟨cid, .next, false⟩ ∧
      main_step cid input res = ⟨cid, .next, false⟩) := by
  constructor
  · intro h
    have hc : classifyInput input = .quitCmd := by simp [classifyInput, h]
    exact ⟨by simp [run_chat_session_step, hc], by simp [main_step, hc]⟩
  · intro h
    have hc : classifyInput input = .blank := by
      simp [classifyInput, h]
      decide
    exact ⟨by simp [run_chat_session_step, hc], by simp [main_step, hc]⟩

/-- Claim C9, witness: the inputs `"  exit  "`, `"Q"` and `"   "` on
concrete session states. -/
theorem c9_witness :
    (isExitWord (lowerStr (pyStrip "  exit  ")) = true ∧
      run_chat_session_step (some "s1") "  exit  " (.ok (some "t") "x")
        = ⟨some "s1", .quit, false⟩) ∧
    (isExitWord (lowerStr (pyStrip "Q")) = true ∧
      main_step (some "s1") "Q" (.ok (some "t") "x")
        = ⟨some "s1", .quit, false⟩) ∧
    (pyStrip "   " = "" ∧
      run_chat_session_step (some "s1") "   " (.ok (some "t") "x")
        = ⟨some "s1", .next, false⟩) :=
  ⟨⟨by decide,
    ((c9_exit_and_blank (some "s1") "  exit  " (.ok (some "t") "x")).1
      (by decide)).1⟩,
   ⟨by decide,
    ((c9_exit_and_blank (some "s1") "Q" (.ok (some "t") "x")).1
      (by decide)).2⟩,
   ⟨by decide,
    ((c9_exit_and_blank (some "s1") "   " (.ok (some "t") "x")).2
      (by decide)).1⟩⟩

/-- Claim C10: whatever exception interrupts consumption of the event
stream — an `error` event raised by the backend or a transport error of
any class — the event-shape aggregator returns normally with the
accumulated text whenever any content was accumulated before the
exception, and re-raises the error wrapped with the `Streaming error:`
context exactly when the accumulated text is empty. -/
theorem c10_error_downgrade (chatId : Option String) (inp : SInput)
    (m : String) :
    ((consumeEvents chatId inp.events "" chatId).raised = some m ∨
      ((consumeEvents chatId inp.events "" chatId).raised = none ∧
        inp.transportErr = some m)) →
    ((consumeEvents chatId inp.events "" chatId).acc = "" →
      stream_response chatId inp = .error ("Streaming error: " ++ m)) ∧
    ((consumeEvents chatId inp.events "" chatId).acc ≠ "" →
      ∃ cid, stream_response chatId inp
        = .ok (cid, (consumeEvents chatId inp.events "" chatId).acc)) := by
  intro hr
  have hraised :
      (match (consumeEvents chatId inp.events "" chatId).raised with
        | some m' => some m'
        | none => inp.transportErr) = some m := by
    rcases hr with h | ⟨h1, h2⟩
    · rw [h]
    · rw [h1, h2]
  constructor
  · intro hacc
    by_cases ht : isTransientMsg m <;>
      simp [stream_response, hraised, ht, hacc]
  · intro hacc
    by_cases ht : isTransientMsg m
    · exact ⟨postLoopId chatId inp.streamChatId
          (recoverId inp.streamChatId
            (consumeEvents chatId inp.events "" chatId).fid),
        by simp [stream_response, hraised, ht, hacc]⟩
    · exact ⟨recoverId inp.streamChatId
          (consumeEvents chatId inp.events "" chatId).fid,
        by simp [stream_response, hraised, ht, hacc]⟩

/-- Claim C10, witness: an explicit backend `error` event (whose message
matches no transient phrase) after one content delta still yields a
normal return with the accumulated text. -/
theorem c10_witness :
    ((consumeEvents none
        [SEvent.content (some "x"), SEvent.errorEvt "backend exploded"]
        "" none).raised = some "Stream error: backend exploded" ∨
      ((consumeEvents none
          [SEvent.content (some "x"), SEvent.errorEvt "backend exploded"]
          "" none).raised = none ∧
        (none : Option String) = some "Stream error: backend exploded")) ∧
    (consumeEvents none
        [SEvent.content (some "x"), SEvent.errorEvt "backend exploded"]
        "" none).acc ≠ "" ∧
    ∃ cid, stream_response none
        ⟨[SEvent.content (some "x"), SEvent.errorEvt "backend exploded"],
          none, none⟩ = .ok (cid, "x") :=
  ⟨Or.inl (by decide), by decide,
   (c10_error_downgrade none
      ⟨[SEvent.content (some "x"), SEvent.errorEvt "backend exploded"],
        none, none⟩ "Stream error: backend exploded"
      (Or.inl (by decide))).2 (by decide)⟩

/-- Claim C7, counterexample: `make_links_clickable` is not idempotent,
because the produced markup can still match the markdown inline-link
pattern: on `"[a](b)(c)"` the first pass yields `"[link=b]a[/link](c)"`,
in which `[/link](c)` matches `\[([^\]]+)\]\(([^\)]+)\)` again, so a
second pass changes the string. -/
theorem c7_counterexample :
    make_links_clickable (make_links_clickable "[a](b)(c)")
      ≠ make_links_clickable "[a](b)(c)" := by
  decide

/-- Claim C7, amended: `make_links_clickable` is idempotent on exactly
those inputs whose first-pass output no longer contains a match of the
markdown inline-link pattern; in general a bracket group in the output
followed by a parenthesis group can re-match, and a second application
then changes the string. -/
theorem c7_idempotent_when_no_match (s : String) :
    hasLink (make_links_clickable s).data = false →
    make_links_clickable (make_links_clickable s) = make_links_clickable s := by
  intro h
  show String.mk (linkSub (make_links_clickable s).data) = make_links_clickable s
  rw [linkSub, linkSubF_noMatch _ _ (Nat.le_refl _) h]

/-- Claim C7, witness: the amended theorem applied to a two-link input
whose transformed text admits no further match. -/
theorem c7_witness :
    hasLink (make_links_clickable "see [a](http://x) and [b](http://y)").data
      = false ∧
    make_links_clickable
        (make_links_clickable "see [a](http://x) and [b](http://y)")
      = make_links_clickable "see [a](http://x) and [b](http://y)" :=
  ⟨by decide,
   c7_idempotent_when_no_match "see [a](http://x) and [b](http://y)"
     (by decide)⟩

/-- Claim C8, counterexample: wrapping a matched object in a fenced code
block does not stop the field pattern from matching again — the regex
knows nothing about fences, and the braced object it wrapped is still
present verbatim inside the fence. On `"\x7b\"query\": \"x\"\x7d"` the
second application re-wraps the object inside the fence produced by the
first, changing the string. -/
theorem c8_counterexample :
    highlight_search_fields
        (highlight_search_fields "\x7b\"query\": \"x\"\x7d")
      ≠ highlight_search_fields "\x7b\"query\": \"x\"\x7d" := by
  decide

/-- Claim C8, amended: `highlight_search_fields` is idempotent on
exactly those inputs whose first-pass output no longer contains a match
of the field pattern; whenever the first pass wrapped some object the
output still matches (the fenced block does not block the pattern), and
a second application changes the string. -/
theorem c8_idempotent_when_no_match (s : String) :
    hasField (highlight_search_fields s).data = false →
    highlight_search_fields (highlight_search_fields s)
      = highlight_search_fields s := by
  intro h
  show String.mk (fieldSub (highlight_search_fields s).data)
      = highlight_search_fields s
  rw [fieldSub, fieldSubF_noMatch _ _ (Nat.le_refl _) h]

/-- Claim C8, witness: the amended theorem applied to an input the
field pattern never matches, on which the transform is the identity. -/
theorem c8_witness :
    hasField (highlight_search_fields "plain text, no json objects").data
      = false ∧
    highlight_search_fields
        (highlight_search_fields "plain text, no json objects")
      = highlight_search_fields "plain text, no json objects" :=
  ⟨by decide,
   c8_idempotent_when_no_match "plain text, no json objects" (by decide)⟩
